import Mathlib

/-!
Verification of the analytics-service forecasting core
(`src/analytics-service/app/services/forecasting.py`, function
`generate_forecast`) against its natural-language specification.

Modelling conventions:
* Instants (timezone-aware timestamps) are modelled as integers counting
  minutes from a fixed epoch (2024-01-01T00:00Z in the worked examples).
  One hour is 60 minutes; the 90-day lookback window is 129600 minutes.
* `pandas` operations are embedded by their documented semantics on this
  integer timeline:
  - `Series.dt.floor("H")` truncates an instant down to the enclosing hour
    boundary: `floorHour`;
  - `pd.date_range(start, end, freq="H")` produces the hourly grid anchored
    at `start`, keeping every point `≤ end` (both endpoints inclusive when
    they land on the grid), and is empty when `end < start`: `future_index`;
  - `Series.mean()` returns NaN (a value, not an exception) on an empty
    series; this is modelled by `seriesMean : List ℚ → Option ℚ` where
    `none` stands for the NaN sentinel.
* The SQL read in step 1 of `generate_forecast` is embedded as a filter
  over an explicit `calls` table (`fetchRows`); the nullable text column
  `response_date_time` is an `Option ℤ`.
* The output store behind SQLAlchemy's unit of work is not part of the
  repository's source; its atomic commit semantics are modelled from the
  spec (`Store`, `insertRow`, `commitStore`).
-/

namespace Forecasting

/-- Minutes in one hour. -/
def hourLen : ℤ := 60

/-- Minutes in the fixed 90-day lookback window (`interval '90 days'`). -/
def lookback : ℤ := 129600

/-- Embedding of `df["call_ts"].dt.floor("H")` at a single instant:
truncate down to the enclosing hour boundary (floor division by 60,
rounding toward minus infinity, as pandas floors instants; `/` on `ℤ` is
Euclidean division, which floors for the positive divisor 60). -/
def floorHour (t : ℤ) : ℤ := 60 * (t / 60)

/-- Request payload of `generate_forecast` (the `ForecastRequest` fields the
core reads: `parish_id`, `start`, `end`; `end` is spelled `end_` because
`end` is reserved in Lean). -/
structure Payload where
  parish_id : ℤ
  start : ℤ
  end_ : ℤ
deriving DecidableEq, Repr

/-- One row of the `calls` table as the SQL query sees it: the parish id and
the nullable `response_date_time` column (already cast to an instant). -/
structure CallRec where
  parish_id : ℤ
  response_date_time : Option ℤ
deriving DecidableEq, Repr

/-- Embedding of step 1 of `generate_forecast`: the SQL query returning all
call timestamps of the requested parish with a non-null timestamp lying in
`[start − 90 days, end)`. -/
def fetchRows (calls : List CallRec) (p : Payload) : List ℤ :=
  calls.filterMap fun c =>
    match c.response_date_time with
    | none => none
    | some t =>
        if c.parish_id = p.parish_id ∧ p.start - lookback ≤ t ∧ t < p.end_
        then some t else none

/-- Embedding of the Bucketizer (`df.groupby("bucket")` keys): the distinct
hour buckets that contain at least one historical event. -/
def hourBuckets (ts : List ℤ) : List ℤ := (ts.map floorHour).dedup

/-- Embedding of `series = df.groupby("bucket").size()`: the per-bucket
event counts, one entry per bucket present in the sparse mapping. -/
def bucketCounts (ts : List ℤ) : List ℚ :=
  (hourBuckets ts).map fun b => ((ts.map floorHour).count b : ℚ)

/-- Embedding of pandas `Series.mean()`: `none` models the NaN sentinel the
library returns for an empty series (a value, not a raised exception). -/
def seriesMean (xs : List ℚ) : Option ℚ :=
  if xs = [] then none else some (xs.sum / xs.length)

/-- The Baseline Estimator's output on a non-empty history:
`series.mean()`, the arithmetic mean of the per-bucket counts. On the
(unreachable) empty history this total function yields the junk value `0`;
`baseline_eq_seriesMean` below shows it agrees with the faithful
`seriesMean` whenever the history is non-empty. -/
def baseline (ts : List ℤ) : ℚ :=
  (bucketCounts ts).sum / ((bucketCounts ts).length : ℚ)

/-- Embedding of `pd.date_range(payload.start, payload.end, freq="H")`: the
hourly grid anchored at `start`, keeping every point `≤ end` (pandas
includes both endpoints when they land on the grid) and empty when
`end < start`. -/
def future_index (s e : ℤ) : List ℤ :=
  if s ≤ e then (List.range ((e - s).toNat / 60 + 1)).map (fun k : ℕ => s + 60 * (k : ℤ))
  else []

/-- One row inserted into `forecast_heatmap` by the writer loop. -/
structure ForecastRow where
  parish_id : ℤ
  cell_id : String
  bucket_start : ℤ
  bucket_end : ℤ
  forecast_calls : ℚ
  model_version : String
deriving DecidableEq, Repr, Inhabited

/-- Embedding of the Forecast Projector plus the row construction inside the
writer loop: one row per point of `future_index`, each one hour wide, all
carrying the same value `v` and the literal `model_version = "naive_v0"`. -/
def projectRows (p : Payload) (v : ℚ) : List ForecastRow :=
  (future_index p.start p.end_).map fun b =>
    { parish_id := p.parish_id
      cell_id := "global"
      bucket_start := b
      bucket_end := b + 60
      forecast_calls := v
      model_version := "naive_v0" }

/-- Result value of `generate_forecast`: either the no-data short-circuit
`{"message": "No data"}` or the success dictionary
`{"rows_written": …, "model_version": …}`. -/
inductive ForecastResult where
  | noData : ForecastResult
  | ok (rows_written : ℕ) (model_version : String) : ForecastResult
deriving DecidableEq, Repr

/-- Observable trace of one run of `generate_forecast`: the returned value,
the rows passed to `INSERT INTO forecast_heatmap` (in order), and whether
`db.commit()` was issued. -/
structure RunTrace where
  result : ForecastResult
  inserted : List ForecastRow
  commitIssued : Bool
deriving DecidableEq, Repr

/-- Embedding of `generate_forecast`: fetch history, short-circuit on no
data, bucket and average, project the hourly grid, insert every row and
commit, reporting the number of rows written and the model version. -/
def generate_forecast (calls : List CallRec) (p : Payload) : RunTrace :=
  let rows := fetchRows calls p
  if rows = [] then ⟨.noData, [], false⟩
  else
    let fc := projectRows p (baseline rows)
    ⟨.ok fc.length "naive_v0", fc, true⟩

/-- Modelled from the spec: the output store behind `db.execute(INSERT …)`
and `db.commit()` is the database's unit of work, which is outside this
repository's source. Per §4.5 the inserts of one run are staged in a
pending transaction and become visible only when the commit succeeds; a
failed commit leaves no partial state visible. -/
structure Store where
  committed : List ForecastRow
  pending : List ForecastRow
deriving DecidableEq, Repr

/-- Stage one `INSERT INTO forecast_heatmap` in the unit of work. -/
def insertRow (s : Store) (r : ForecastRow) : Store :=
  ⟨s.committed, s.pending ++ [r]⟩

/-- Finish the unit of work: a successful `db.commit()` publishes every
pending row at once; a failed commit rolls every pending row back. -/
def commitStore (s : Store) (succeeds : Bool) : Store :=
  if succeeds then ⟨s.committed ++ s.pending, []⟩ else ⟨s.committed, []⟩

/-- What a subsequent read of the output store sees: committed rows only. -/
def readStore (s : Store) : List ForecastRow := s.committed

/-- The Forecast Writer against the store model: insert each row in order,
then commit once. -/
def writeRows (s : Store) (rows : List ForecastRow) (succeeds : Bool) : Store :=
  commitStore (rows.foldl insertRow s) succeeds

/-! Helper lemmas. -/

/-- Summing the per-bucket counts over the distinct bucket keys recovers the
total number of events: each event is counted in exactly one bucket. -/
lemma sum_map_count_dedup (l : List ℤ) :
    ((l.dedup).map fun b => (l.count b : ℚ)).sum = (l.length : ℚ) := by
  have h : ((l.dedup).map (l.count ·)).sum = l.length := by
    have h0 := Multiset.toFinset_sum_count_eq (l : Multiset ℤ)
    simpa [Finset.sum, Multiset.toFinset, List.toFinset] using h0
  have h2 : ((l.dedup).map fun b => (l.count b : ℚ)) =
      ((l.dedup).map (l.count ·)).map (fun n : ℕ => (n : ℚ)) := by
    simp [List.map_map]
  rw [h2, ← Nat.cast_list_sum, h]

/-- A non-empty history yields at least one bucket key. -/
lemma hourBuckets_ne_nil {ts : List ℤ} (h : ts ≠ []) : hourBuckets ts ≠ [] := by
  simp [hourBuckets, List.dedup_eq_nil, h]

/-- A non-empty history yields a non-empty per-bucket count series. -/
lemma bucketCounts_ne_nil {ts : List ℤ} (h : ts ≠ []) : bucketCounts ts ≠ [] := by
  simpa [bucketCounts] using hourBuckets_ne_nil h

/-- On the reachable (non-empty) histories the total `baseline` agrees with
the faithful pandas mean `seriesMean` of the per-bucket counts. -/
lemma baseline_eq_seriesMean {ts : List ℤ} (h : ts ≠ []) :
    seriesMean (bucketCounts ts) = some (baseline ts) := by
  simp [seriesMean, bucketCounts_ne_nil h, baseline]

/-- The baseline is the total event count divided by the number of distinct
non-empty buckets. -/
lemma baseline_eq_length_div (ts : List ℤ) :
    baseline ts = (ts.length : ℚ) / ((hourBuckets ts).length : ℚ) := by
  unfold baseline bucketCounts hourBuckets
  rw [List.length_map, sum_map_count_dedup, List.length_map]

/-- Number of grid points produced by `pd.date_range` on a non-inverted
range: one more than the number of whole hours in the span. -/
lemma future_index_length {s e : ℤ} (h : s ≤ e) :
    (future_index s e).length = (e - s).toNat / 60 + 1 := by
  unfold future_index
  rw [if_pos h, List.length_map, List.length_range]

/-- The `i`-th grid point is `start + i` hours: the grid is anchored at
`start` and walks in one-hour steps. -/
lemma future_index_get {s e : ℤ} (h : s ≤ e) (i : Fin (future_index s e).length) :
    (future_index s e).get i = s + 60 * (i : ℕ) := by
  rcases i with ⟨i, hi⟩
  rw [List.get_eq_getElem]
  unfold future_index
  simp only [if_pos h, List.getElem_map, List.getElem_range]

/-- Every grid point lies on the hourly grid anchored at `start` and inside
the closed interval `[start, end]`. -/
lemma future_index_mem {s e b : ℤ} (hb : b ∈ future_index s e) :
    ∃ k : ℕ, b = s + 60 * k ∧ s ≤ b ∧ b ≤ e := by
  unfold future_index at hb
  by_cases h : s ≤ e
  · rw [if_pos h] at hb
    rw [List.mem_map] at hb
    obtain ⟨k, hk, hkb⟩ := hb
    rw [List.mem_range] at hk
    refine ⟨k, hkb.symm, ?_, ?_⟩ <;> omega
  · rw [if_neg h] at hb
    simp at hb

/-- Evaluation rule for a run that finds historical data: the result counts
the grid rows, and one row per grid point is inserted before the commit. -/
lemma generate_forecast_eq {calls : List CallRec} {p : Payload} {ts : List ℤ}
    (hf : fetchRows calls p = ts) (hne : ts ≠ []) :
    generate_forecast calls p =
      ⟨ForecastResult.ok (future_index p.start p.end_).length "naive_v0",
       (future_index p.start p.end_).map fun b =>
         { parish_id := p.parish_id, cell_id := "global", bucket_start := b,
           bucket_end := b + 60, forecast_calls := baseline ts,
           model_version := "naive_v0" },
       true⟩ := by
  unfold generate_forecast projectRows
  rw [hf, if_neg hne]
  simp [List.length_map]

/-- Staging rows one by one leaves the committed rows untouched and queues
everything in order. -/
lemma foldl_insertRow (rows : List ForecastRow) (s : Store) :
    rows.foldl insertRow s = ⟨s.committed, s.pending ++ rows⟩ := by
  induction rows generalizing s with
  | nil =>
      obtain ⟨c, q⟩ := s
      simp [insertRow]
  | cons r rest ih =>
      obtain ⟨c, q⟩ := s
      simp [insertRow, ih]

/-- Worked example of §8.6: the three historical calls of area 7, placed on
2023-12-31 at 10:15, 10:40 and 11:05 UTC (minutes −825, −800, −775 from the
epoch 2024-01-01T00:00Z). -/
def C2calls : List CallRec :=
  [⟨7, some (-825)⟩, ⟨7, some (-800)⟩, ⟨7, some (-775)⟩]

/-- Worked example of §8.6: area 7, requestedStart = 2024-01-01T00:00Z
(minute 0), requestedEnd = 2024-01-01T02:00Z (minute 120). -/
def C2payload : Payload := ⟨7, 0, 120⟩

/-! Claim theorems. -/

/-- C4: whenever the historical query returns zero events, `generate_forecast`
returns the distinct no-data result, inserts no row, and never reaches the
commit — no later pipeline stage executes. -/
theorem C4_no_data_short_circuit (calls : List CallRec) (p : Payload)
    (h : fetchRows calls p = []) :
    generate_forecast calls p = ⟨ForecastResult.noData, [], false⟩ := by
  simp [generate_forecast, h]

/-- C4 witness: a parish with no qualifying calls takes the no-data exit. -/
theorem C4_witness :
    generate_forecast [⟨8, some 5⟩] ⟨7, 0, 120⟩ = ⟨ForecastResult.noData, [], false⟩ :=
  C4_no_data_short_circuit [⟨8, some 5⟩] ⟨7, 0, 120⟩ (by decide)

/-- C10: an inverted range (`end < start`) whose 90-day lookback still finds
events does not fail: the hourly grid is empty, so zero rows are inserted,
the commit is still issued, and the caller gets `rows_written = 0`. -/
theorem C10_inverted_range_zero_rows (calls : List CallRec) (p : Payload)
    (h1 : p.end_ < p.start) (h2 : fetchRows calls p ≠ []) :
    generate_forecast calls p = ⟨ForecastResult.ok 0 "naive_v0", [], true⟩ := by
  have hfi : future_index p.start p.end_ = [] := by
    unfold future_index
    rw [if_neg (not_le.mpr h1)]
  unfold generate_forecast
  rw [if_neg h2]
  simp [projectRows, hfi]

/-- C10 witness: end one minute before start, one historical call in the
lookback window. -/
theorem C10_witness :
    generate_forecast [⟨7, some (-60)⟩] ⟨7, 0, -1⟩
      = ⟨ForecastResult.ok 0 "naive_v0", [], true⟩ :=
  C10_inverted_range_zero_rows [⟨7, some (-60)⟩] ⟨7, 0, -1⟩ (by decide) (by decide)

/-- C9: every inserted row of a run carries the literal model version
`"naive_v0"`, and any success result reports that same literal. -/
theorem C9_single_model_version (calls : List CallRec) (p : Payload) :
    (∀ r ∈ (generate_forecast calls p).inserted, r.model_version = "naive_v0") ∧
    (∀ n mv, (generate_forecast calls p).result = ForecastResult.ok n mv →
      mv = "naive_v0") := by
  unfold generate_forecast
  by_cases h : fetchRows calls p = [] <;> simp [h, projectRows]

/-- C9 witness: a two-row run whose first row and whose reported result both
carry `"naive_v0"`. -/
theorem C9_witness :
    ({ parish_id := 7, cell_id := "global", bucket_start := 0, bucket_end := 60,
       forecast_calls := baseline [-825], model_version := "naive_v0" } :
        ForecastRow).model_version = "naive_v0" ∧ "naive_v0" = "naive_v0" := by
  have h := C9_single_model_version [⟨7, some (-825)⟩] ⟨7, 0, 60⟩
  have hf : fetchRows [⟨7, some (-825)⟩] ⟨7, 0, 60⟩ = [-825] := by decide
  have hg := generate_forecast_eq hf (by decide)
  have hfi : future_index (0 : ℤ) 60 = [0, 60] := by decide
  refine ⟨h.1 _ ?_, h.2 2 "naive_v0" ?_⟩
  · rw [hg]
    simp [hfi]
  · rw [hg]
    simp [hfi]

/-- C5: once the projector stage is reached, every inserted row carries one
and the same `forecast_value`, and that value is the Baseline Estimator's
output (the pandas mean of the per-bucket counts). -/
theorem C5_flat_projection (calls : List CallRec) (p : Payload)
    (h : fetchRows calls p ≠ []) :
    (∀ r ∈ (generate_forecast calls p).inserted,
        r.forecast_calls = baseline (fetchRows calls p)) ∧
    seriesMean (bucketCounts (fetchRows calls p))
      = some (baseline (fetchRows calls p)) := by
  constructor
  · unfold generate_forecast
    rw [if_neg h]
    simp [projectRows]
  · exact baseline_eq_seriesMean h

/-- C5 witness: a one-row run whose single row carries the estimator's
output. -/
theorem C5_witness :
    ({ parish_id := 7, cell_id := "global", bucket_start := 0, bucket_end := 60,
       forecast_calls := baseline (fetchRows [⟨7, some (-825)⟩, ⟨7, some (-800)⟩] ⟨7, 0, 30⟩),
       model_version := "naive_v0" } : ForecastRow).forecast_calls
      = baseline (fetchRows [⟨7, some (-825)⟩, ⟨7, some (-800)⟩] ⟨7, 0, 30⟩) ∧
    seriesMean (bucketCounts (fetchRows [⟨7, some (-825)⟩, ⟨7, some (-800)⟩] ⟨7, 0, 30⟩))
      = some (baseline (fetchRows [⟨7, some (-825)⟩, ⟨7, some (-800)⟩] ⟨7, 0, 30⟩)) := by
  have h := C5_flat_projection [⟨7, some (-825)⟩, ⟨7, some (-800)⟩] ⟨7, 0, 30⟩ (by decide)
  have hf : fetchRows [⟨7, some (-825)⟩, ⟨7, some (-800)⟩] ⟨7, 0, 30⟩ = [-825, -800] := by
    decide
  have hg := generate_forecast_eq hf (by decide)
  have hfi : future_index (0 : ℤ) 30 = [0] := by decide
  refine ⟨h.1 _ ?_, h.2⟩
  rw [hg, hf]
  simp [hfi]

/-- C8: the Baseline Estimator is pandas `Series.mean()`, which on an empty
bucket mapping returns the NaN sentinel (`none` in this embedding) — a
value, not a raised failure; moreover the empty mapping is unreachable
through the pipeline, since every non-empty history populates at least one
bucket. -/
theorem C8_estimator_empty_mapping :
    seriesMean [] = none ∧ ∀ ts : List ℤ, ts ≠ [] → bucketCounts ts ≠ [] := by
  refine ⟨rfl, ?_⟩
  intro ts h
  exact bucketCounts_ne_nil h

/-- C8 witness: the NaN sentinel on the empty series, and a concrete
non-empty history with a non-empty bucket mapping. -/
theorem C8_witness :
    seriesMean [] = none ∧ bucketCounts [615] ≠ [] :=
  ⟨C8_estimator_empty_mapping.1, C8_estimator_empty_mapping.2 [615] (by decide)⟩

/-- C1 (amended): for `requestedStart < requestedEnd` the projector emits
exactly `floor((end − start)/1h) + 1` rows (pandas `date_range` keeps the
right endpoint when it lands on the hourly grid), whose `bucket_start`
values walk the hourly grid anchored at `requestedStart` with no gaps or
duplicates, each row one hour wide, every `bucket_start` inside the closed
interval `[requestedStart, requestedEnd]`. -/
theorem C1_hourly_grid (s e : ℤ) (h : s < e) (pid : ℤ) (v : ℚ) :
    (projectRows ⟨pid, s, e⟩ v).length = (e - s).toNat / 60 + 1 ∧
    (∀ i : Fin (projectRows ⟨pid, s, e⟩ v).length,
        ((projectRows ⟨pid, s, e⟩ v).get i).bucket_start = s + 60 * (i : ℕ)) ∧
    (∀ r ∈ projectRows ⟨pid, s, e⟩ v,
        r.bucket_end = r.bucket_start + 60 ∧ s ≤ r.bucket_start ∧ r.bucket_start ≤ e) := by
  refine ⟨?_, ?_, ?_⟩
  · unfold projectRows
    rw [List.length_map, future_index_length (le_of_lt h)]
  · intro i
    rcases i with ⟨i, hi⟩
    have hi2 : i < (List.range ((e - s).toNat / 60 + 1)).length := by
      simpa [projectRows, future_index, le_of_lt h] using hi
    simp only [projectRows, future_index, if_pos (le_of_lt h), List.get_eq_getElem,
      List.getElem_map, List.getElem_range]
  · intro r hr
    unfold projectRows at hr
    rw [List.mem_map] at hr
    obtain ⟨b, hb, hbr⟩ := hr
    obtain ⟨k, hk, hsb, hbe⟩ := future_index_mem hb
    subst hbr
    exact ⟨rfl, hsb, hbe⟩

/-- C1 witness: a 90-minute span yields `90 / 60 + 1 = 2` rows. -/
theorem C1_witness :
    (projectRows ⟨7, 0, 90⟩ 1).length = ((90 : ℤ) - 0).toNat / 60 + 1 :=
  (C1_hourly_grid 0 90 (by decide) 7 1).1

/-- C1 counterexample: on the whole-hour span `[0, 120)` the claim demands
`ceil(120/60) = 2` rows spanning the half-open interval, but the code emits
3 rows, one of which starts at minute 120 — outside `[0, 120)`. -/
theorem C1_counterexample :
    (projectRows ⟨7, 0, 120⟩ 1).length = 3 ∧ (projectRows ⟨7, 0, 120⟩ 1).length ≠ 2 ∧
    (120 : ℤ) ∈ (projectRows ⟨7, 0, 120⟩ 1).map ForecastRow.bucket_start := by
  refine ⟨by decide, by decide, by decide⟩

/-- C3 (amended): the projector's output is empty when
`requestedEnd < requestedStart` strictly; when `requestedEnd =
requestedStart` it emits exactly one row, starting at `requestedStart`. -/
theorem C3_projector_on_degenerate_range (s e pid : ℤ) (v : ℚ) :
    (e < s → projectRows ⟨pid, s, e⟩ v = []) ∧
    (e = s → (projectRows ⟨pid, s, e⟩ v).map ForecastRow.bucket_start = [s]) := by
  constructor
  · intro h
    unfold projectRows future_index
    rw [if_neg (not_le.mpr h)]
    rfl
  · rintro rfl
    have h1 : future_index e e = [e] := by
      unfold future_index
      rw [if_pos le_rfl, sub_self, Int.toNat_zero, Nat.zero_div]
      rw [show List.range 1 = [0] from rfl]
      simp
    unfold projectRows
    rw [h1]
    simp

/-- C3 witness: an inverted range yields no rows; an equal range yields one
row at the start instant. -/
theorem C3_witness :
    projectRows ⟨7, 0, -60⟩ 1 = [] ∧
    (projectRows ⟨7, 0, 0⟩ 1).map ForecastRow.bucket_start = [0] :=
  ⟨(C3_projector_on_degenerate_range 0 (-60) 7 1).1 (by decide),
   (C3_projector_on_degenerate_range 0 0 7 1).2 rfl⟩

/-- C3 counterexample: with `requestedEnd = requestedStart` (which satisfies
`requestedEnd ≤ requestedStart`) and one historical event in the lookback
window, the pipeline inserts one row, so the produced sequence is not
empty as the claim requires. -/
theorem C3_counterexample :
    (generate_forecast [⟨7, some (-60)⟩] ⟨7, 0, 0⟩).inserted.length = 1 ∧
    (generate_forecast [⟨7, some (-60)⟩] ⟨7, 0, 0⟩).inserted ≠ [] := by
  refine ⟨by decide, by decide⟩

/-- C6: on a non-empty history the baseline is the arithmetic mean of the
per-bucket counts — total events divided by the number of distinct
non-empty buckets — where a bucket key is the event's timestamp truncated
down to the enclosing hour boundary; a key is present in the sparse
mapping exactly when its count is positive (absent buckets contribute no
zero observations), and keys are not duplicated. -/
theorem C6_baseline_is_bucket_mean (ts : List ℤ) (h : ts ≠ []) :
    baseline ts = (bucketCounts ts).sum / ((bucketCounts ts).length : ℚ) ∧
    hourBuckets ts ≠ [] ∧
    baseline ts = (ts.length : ℚ) / ((hourBuckets ts).length : ℚ) ∧
    (∀ t ∈ ts, 60 ∣ floorHour t ∧ floorHour t ≤ t ∧ t < floorHour t + 60) ∧
    (∀ b : ℤ, b ∈ hourBuckets ts ↔ 0 < (ts.map floorHour).count b) ∧
    (hourBuckets ts).Nodup := by
  refine ⟨rfl, hourBuckets_ne_nil h, baseline_eq_length_div ts, ?_, ?_, ?_⟩
  · intro t ht
    refine ⟨⟨t / 60, rfl⟩, ?_, ?_⟩ <;> (unfold floorHour; omega)
  · intro b
    rw [hourBuckets, List.mem_dedup, List.count_pos_iff]
  · exact List.nodup_dedup _

/-- C6 witness: three events in two buckets give baseline `3 / 2`. -/
theorem C6_witness :
    hourBuckets [(-825 : ℤ), -800, -775] ≠ [] ∧
    baseline [(-825 : ℤ), -800, -775]
      = (([(-825 : ℤ), -800, -775].length : ℚ)
          / ((hourBuckets [(-825 : ℤ), -800, -775]).length : ℚ)) :=
  ⟨(C6_baseline_is_bucket_mean [(-825 : ℤ), -800, -775] (by decide)).2.1,
   (C6_baseline_is_bucket_mean [(-825 : ℤ), -800, -775] (by decide)).2.2.1⟩

/-- C7: against the unit-of-work store model, a run's write is atomic — a
successful commit publishes exactly the run's rows after the prior
contents, while a failed commit leaves the store exactly as it was, so a
subsequent read returns none of the run's rows. -/
theorem C7_atomic_commit (rows : List ForecastRow) (s0 : Store) (h : s0.pending = []) :
    readStore (writeRows s0 rows true) = readStore s0 ++ rows ∧
    readStore (writeRows s0 rows false) = readStore s0 ∧
    (∀ r ∈ rows, r ∉ readStore s0 → r ∉ readStore (writeRows s0 rows false)) := by
  obtain ⟨c, q⟩ := s0
  subst h
  unfold writeRows readStore commitStore
  rw [foldl_insertRow]
  refine ⟨by simp, by simp, ?_⟩
  intro r hr hnr
  simpa using hnr

/-- C7 witness: a failed commit of a one-row run on a fresh store leaves a
subsequent read with zero rows. -/
theorem C7_witness :
    readStore (writeRows ⟨[], []⟩
      [{ parish_id := 7, cell_id := "global", bucket_start := 0, bucket_end := 60,
         forecast_calls := 1, model_version := "naive_v0" }] false) = [] :=
  (C7_atomic_commit
    [{ parish_id := 7, cell_id := "global", bucket_start := 0, bucket_end := 60,
       forecast_calls := 1, model_version := "naive_v0" }] ⟨[], []⟩ rfl).2.1

/-- C2 (amended): on the worked example the historical buckets are
`{10:00 ↦ 2, 11:00 ↦ 1}` (minutes −840 and −780) and the baseline is
`1.5`, as the spec says, but the run emits 3 rows — `[00:00,01:00)`,
`[01:00,02:00)` and `[02:00,03:00)`, pandas keeping the aligned right
endpoint 02:00 — all with `forecast_value = 1.5` and
`model_version = "naive_v0"`, and reports `rows_written = 3`. -/
theorem C2_example_run :
    fetchRows C2calls C2payload = [-825, -800, -775] ∧
    hourBuckets [(-825 : ℤ), -800, -775] = [-840, -780] ∧
    bucketCounts [(-825 : ℤ), -800, -775] = [2, 1] ∧
    baseline [(-825 : ℤ), -800, -775] = 3 / 2 ∧
    (generate_forecast C2calls C2payload).inserted.map
        (fun r => (r.bucket_start, r.bucket_end, r.forecast_calls, r.model_version)) =
      [(0, 60, 3 / 2, "naive_v0"), (60, 120, 3 / 2, "naive_v0"),
       (120, 180, 3 / 2, "naive_v0")] ∧
    (generate_forecast C2calls C2payload).result = ForecastResult.ok 3 "naive_v0" := by
  have hf : fetchRows C2calls C2payload = [-825, -800, -775] := by decide
  have hb : baseline [(-825 : ℤ), -800, -775] = 3 / 2 := by
    norm_num [baseline, bucketCounts, hourBuckets, floorHour]
  have hfi : future_index (0 : ℤ) 120 = [0, 60, 120] := by decide
  have hg := generate_forecast_eq hf (by decide)
  refine ⟨hf, by decide, ?_, hb, ?_, ?_⟩
  · norm_num [bucketCounts, hourBuckets, floorHour]
  · rw [hg]
    simp [C2payload, hfi, hb]
  · rw [hg]
    simp [C2payload, hfi]

/-- C2 counterexample: the worked example's run reports `rows_written = 3`,
not the `rows_written = 2` the claim states, and inserts 3 rows, not 2. -/
theorem C2_counterexample :
    (generate_forecast C2calls C2payload).result = ForecastResult.ok 3 "naive_v0" ∧
    (generate_forecast C2calls C2payload).result ≠ ForecastResult.ok 2 "naive_v0" ∧
    (generate_forecast C2calls C2payload).inserted.length ≠ 2 := by
  refine ⟨by decide, by decide, by decide⟩

end Forecasting
